import Mathlib

/-!
Verification of the spring-cloud-gateway-go repository.

The development shallowly embeds, in Lean:
* the Eureka registry-client lifecycle run by the two Go backends
  (src/product-api/main.go and src/order-api/main.go): startup
  registration, the background heartbeat loop with self-healing
  re-registration, and the signal-triggered shutdown handler;
* the order CRUD handlers of src/order-api/main.go over an
  association-list model of the in-memory orders map;
* the gateway routing and CORS configuration of
  src/api-gateway/src/main/resources/application.properties, with the
  routing mechanics (first match wins, StripPrefix, relay) modelled
  from the design spec because the Spring Cloud Gateway implementation
  is an external library not present in the repository.

Network calls (register, heartbeat, deregister, proxied forwarding)
are effects whose outcomes are supplied as inputs to the embedded
functions; the embedding records the calls a code path performs as an
explicit event trace.
-/

/-! ## Registry-client model (src/product-api/main.go, src/order-api/main.go) -/

/-- The fargo.Instance record the backends build at startup. -/
structure Instance where
  hostName : String
  port : Nat
  app : String
  ipAddr : String
  vipAddress : String
  secureVipAddress : String
  dataCenterInfo : String
  status : String
  healthCheckUrl : String
deriving DecidableEq

/-- The instance record built in src/product-api/main.go. -/
def productInstance : Instance :=
  { hostName := "localhost"
    port := 9091
    app := "PRODUCT-SERVICE"
    ipAddr := "127.0.0.1"
    vipAddress := "product-service"
    secureVipAddress := "product-service"
    dataCenterInfo := "MyOwn"
    status := "UP"
    healthCheckUrl := "http://localhost:9091/health" }

/-- The instance record built in src/order-api/main.go. -/
def orderInstance : Instance :=
  { hostName := "localhost"
    port := 9092
    app := "ORDER-SERVICE"
    ipAddr := "127.0.0.1"
    vipAddress := "order-service"
    secureVipAddress := "order-service"
    dataCenterInfo := "MyOwn"
    status := "UP"
    healthCheckUrl := "http://localhost:9092/health" }

/-- Outcome of one fargo network call, supplied by the environment.
In Go both a stale lease (HTTP NotFound) and a transport failure
surface as a non-nil error. -/
inductive CallResult where
  | ok
  | notFound
  | transportErr
deriving DecidableEq

/-- Non-nil error in the Go sense. -/
def CallResult.failed : CallResult → Bool
  | .ok => false
  | .notFound => true
  | .transportErr => true

/-- Observable events of a backend process, in program order. -/
inductive ClientEvent where
  | hbStart (inst : Instance)
  | hbEnd (inst : Instance) (r : CallResult)
  | regCall (inst : Instance) (r : CallResult)
  | deregCall (inst : Instance) (r : CallResult)
  | sleep (seconds : Nat)
  | logMsg (msg : String)
  | listen (port : Nat)
  | drainRequests
  | exitProc (code : Nat)
deriving DecidableEq

/-- Environment-chosen outcomes for one iteration of the heartbeat
loop: the heartbeat result, and the result of the re-register should
one be issued. -/
structure TickOutcome where
  hb : CallResult
  reg : CallResult
deriving DecidableEq

/-- One iteration of the background heartbeat goroutine: call
HeartBeatInstance; on a non-nil error log and re-register with the
startup instance record, discarding the register error; then sleep
30 seconds. -/
def heartbeatTick (inst : Instance) (t : TickOutcome) : List ClientEvent :=
  if t.hb.failed then
    [ClientEvent.hbStart inst, ClientEvent.hbEnd inst t.hb,
     ClientEvent.logMsg "Eureka lease renewal (heartbeat) failed. Re-registering...",
     ClientEvent.regCall inst t.reg,
     ClientEvent.sleep 30]
  else
    [ClientEvent.hbStart inst, ClientEvent.hbEnd inst t.hb,
     ClientEvent.sleep 30]

/-- The heartbeat loop run over a finite schedule of environment
outcomes, one per iteration. -/
def heartbeatLoop (inst : Instance) (ticks : List TickOutcome) : List ClientEvent :=
  (ticks.map (heartbeatTick inst)).flatten

/-- Number of heartbeat calls simultaneously in flight is tracked by
this checker: it scans the trace keeping the count of open heartbeat
calls and demands a new call start only when none is open. -/
def noOverlap : Nat → List ClientEvent → Bool
  | _, [] => true
  | o, ClientEvent.hbStart _ :: es => o == 0 && noOverlap (o + 1) es
  | o, ClientEvent.hbEnd _ _ :: es => o == 1 && noOverlap (o - 1) es
  | o, _ :: es => noOverlap o es

/-- Process status after the startup sequence of main. -/
inductive ProcStatus where
  | serving
  | fatalExit
deriving DecidableEq

/-- Result of running main up to (and including) binding the listener. -/
structure StartupResult where
  events : List ClientEvent
  status : ProcStatus
deriving DecidableEq

/-- Startup path of main in both backends: call RegisterInstance, log
either outcome, then ListenAndServe; only a bind failure reaches
log.Fatal and terminates the process. -/
def mainStartup (inst : Instance) (regResult : CallResult) (bindOk : Bool) : StartupResult :=
  let regEvents :=
    [ClientEvent.regCall inst regResult,
     ClientEvent.logMsg
       (if regResult.failed then "Eureka registration failed"
        else "Successfully registered with Eureka")]
  if bindOk then
    { events := regEvents ++ [ClientEvent.listen inst.port], status := ProcStatus.serving }
  else
    { events := regEvents ++
        [ClientEvent.listen inst.port, ClientEvent.logMsg "listen error", ClientEvent.exitProc 1],
      status := ProcStatus.fatalExit }

/-- The signal-handler goroutine body of both backends: on receiving
an interrupt or SIGTERM, log, call DeregisterInstance once discarding
its error, log, and call os.Exit(0). -/
def shutdownHandler (inst : Instance) (deregResult : CallResult) : List ClientEvent :=
  [ClientEvent.logMsg "De-registering from Eureka...",
   ClientEvent.deregCall inst deregResult,
   ClientEvent.logMsg "Shutting down Go API.",
   ClientEvent.exitProc 0]

/-- Counts deregister calls in a trace. -/
def deregCount (es : List ClientEvent) : Nat :=
  es.countP (fun e =>
    match e with
    | ClientEvent.deregCall _ _ => true
    | _ => false)

/-- Counts 30-second sleep events in a trace. -/
def sleepCount (es : List ClientEvent) : Nat :=
  es.countP (fun e =>
    match e with
    | ClientEvent.sleep s => s == 30
    | _ => false)

/-- Counts register calls in a trace. -/
def regCount (es : List ClientEvent) : Nat :=
  es.countP (fun e =>
    match e with
    | ClientEvent.regCall _ _ => true
    | _ => false)

/-! ## Order CRUD model (src/order-api/main.go) -/

/-- The Order JSON record. The Go float64 total is modelled as a
rational number; none of the handlers computes with it. -/
structure Order where
  id : String
  total : ℚ
  product : String
deriving DecidableEq

/-- The in-memory orders map, modelled as an association list keyed
by order id. -/
abbrev OrdersStore := List (String × Order)

/-- Go map read: ordersStore[id]. -/
def lookupOrder (s : OrdersStore) (k : String) : Option Order :=
  (s.find? (fun p => p.1 == k)).map Prod.snd

/-- Go map assignment: ordersStore[k] = v (insert or replace). -/
def insertOrder (s : OrdersStore) (k : String) (v : Order) : OrdersStore :=
  (k, v) :: s.filter (fun p => p.1 != k)

/-- Go map delete: delete(ordersStore, k). -/
def eraseOrder (s : OrdersStore) (k : String) : OrdersStore :=
  s.filter (fun p => p.1 != k)

/-- The two orders seeded by init(). -/
def initialOrdersStore : OrdersStore :=
  [("o101", { id := "o101", total := mkRat 120050 100, product := "Laptop" }),
   ("o102", { id := "o102", total := mkRat 2500 100, product := "Mouse" })]

/-- Initial value of the package-level nextOrderID counter.  The Go
counter is a signed int (64-bit), so it is modelled as an integer
that wraps on overflow. -/
def initialNextOrderID : Int := 3

/-- strings.TrimPrefix: drop p from the front of s when s starts
with p, otherwise return s unchanged.  Stated on the character lists
underlying the strings. -/
def trimPfx (s p : String) : String :=
  if p.data.isPrefixOf s.data then String.mk (s.data.drop p.data.length) else s

/-- Body of an HTTP response produced by the handlers. JSON encoding
is kept symbolic: a response either carries an error text, the JSON
of one order, the JSON of a list of orders, or no body. -/
inductive RespBody where
  | errMsg (msg : String)
  | orderJson (o : Order)
  | ordersJson (os : List Order)
  | empty
deriving DecidableEq

/-- An HTTP response: status code and body. -/
structure HttpResponse where
  status : Nat
  body : RespBody
deriving DecidableEq

/-- handleUpdateOrder: extract the id from the path; 400 on empty id;
404 when the id is not in the store; decode the body (decode failure
is the none case) giving 400 on failure; otherwise force the decoded
record's ID to the path id and overwrite the store entry. Returns the
response together with the store after the call. -/
def handleUpdateOrder (path : String) (body : Option Order) (store : OrdersStore) :
    HttpResponse × OrdersStore :=
  let id := trimPfx path "/orders/"
  if id = "" then
    ({ status := 400, body := RespBody.errMsg "Order ID is required" }, store)
  else
    match lookupOrder store id with
    | none => ({ status := 404, body := RespBody.errMsg "Order not found" }, store)
    | some _ =>
      match body with
      | none => ({ status := 400, body := RespBody.errMsg "Invalid request body" }, store)
      | some o =>
        let updated : Order := { o with id := id }
        ({ status := 200, body := RespBody.orderJson updated }, insertOrder store id updated)

/-- handleDeleteOrder: extract the id from the path; 400 on empty id;
404 when the id is not in the store; otherwise delete the entry and
answer 204 No Content. -/
def handleDeleteOrder (path : String) (store : OrdersStore) :
    HttpResponse × OrdersStore :=
  let id := trimPfx path "/orders/"
  if id = "" then
    ({ status := 400, body := RespBody.errMsg "Order ID is required" }, store)
  else
    match lookupOrder store id with
    | none => ({ status := 404, body := RespBody.errMsg "Order not found" }, store)
    | some _ =>
      ({ status := 204, body := RespBody.empty }, eraseOrder store id)

/-- Decimal digits, least significant first (empty for 0); the first
argument is fuel bounding the recursion depth. -/
def natDigitsRevF : Nat → Nat → List Nat
  | 0, _ => []
  | f + 1, n => if n = 0 then [] else (n % 10) :: natDigitsRevF f (n / 10)

/-- Decimal digits of n, least significant first (empty for 0). -/
def natDigitsRev (n : Nat) : List Nat := natDigitsRevF n n

/-- The character of one decimal digit. -/
def digitChr (d : Nat) : Char := Char.ofNat (48 + d)

/-- Decimal rendering of a natural number (the %d verb). -/
def natToStr (n : Nat) : String :=
  if n = 0 then "0" else String.mk (((natDigitsRev n).reverse).map digitChr)

/-- The %02d verb: decimal, left-padded with a zero to width two. -/
def pad2 (n : Nat) : String :=
  if n < 10 then "0" ++ natToStr n else natToStr n

/-- Two's-complement wrap into the 64-bit signed range: the overflow
behaviour of the Go int counter under nextOrderID++. -/
def wrap64 (n : Int) : Int := (n + 2 ^ 63) % 2 ^ 64 - 2 ^ 63

/-- The %02d verb on a signed value: a minus sign followed by the
decimal digits for a negative (already at least width two, so never
padded), otherwise the zero-padded decimal of the value. -/
def pad2Int (n : Int) : String :=
  if n < 0 then "-" ++ natToStr n.natAbs else pad2 n.toNat

/-- fmt.Sprintf "o1%02d" applied to the counter. -/
def genOrderID (n : Int) : String := "o1" ++ pad2Int n

/-- handleCreateOrder: decode the body (400 on failure); otherwise
overwrite the decoded record's ID with the generated one, bump the
counter, store the record and answer 201 with it. Returns the
response, the store and the counter after the call. -/
def handleCreateOrder (body : Option Order) (store : OrdersStore) (counter : Int) :
    HttpResponse × OrdersStore × Int :=
  match body with
  | none => ({ status := 400, body := RespBody.errMsg "Invalid request body" }, store, counter)
  | some o =>
    let created : Order := { o with id := genOrderID counter }
    ({ status := 201, body := RespBody.orderJson created },
     insertOrder store created.id created, wrap64 (counter + 1))

/-- The id assigned by a create response, when it succeeded. -/
def respCreatedID : HttpResponse → List String
  | { status := 201, body := RespBody.orderJson o } => [o.id]
  | _ => []

/-- Run a sequence of POST /orders requests through handleCreateOrder,
collecting the ids of the successful creations. -/
def runCreates (bodies : List (Option Order)) (store : OrdersStore) (counter : Int) :
    OrdersStore × Int × List String :=
  match bodies with
  | [] => (store, counter, [])
  | b :: rest =>
    let step := handleCreateOrder b store counter
    let next := runCreates rest step.2.1 step.2.2
    (next.1, next.2.1, respCreatedID step.1 ++ next.2.2)

/-- Decimal value of one digit character. -/
def chrVal (c : Char) : Nat := c.toNat - 48

/-- Decimal value of a string of digit characters, read left to
right; leading zeros do not change the value. -/
def strVal (s : String) : Nat :=
  s.data.foldl (fun a c => 10 * a + chrVal c) 0

/-- Value of a little-endian digit list. -/
def valRev : List Nat → Nat
  | [] => 0
  | d :: ds => d + 10 * valRev ds

/-- Counter value used by the i-th successful create when the first
one sees c: each success advances the counter by a wrapping
increment. -/
def counterSeq (c : Int) : Nat → Int
  | 0 => c
  | i + 1 => wrap64 (counterSeq c i + 1)

/-- Signed decimal value of a rendered integer: a leading minus sign
negates the value of the remaining digits. -/
def intVal (s : String) : Int :=
  if s.data.head? = some '-' then -(strVal (String.mk s.data.tail) : Int)
  else (strVal s : Int)

/-! ## Gateway model

The route table and the CORS allow-list below are transcribed from
src/api-gateway/src/main/resources/application.properties.  The
routing mechanics are not part of the repository (they live in the
Spring Cloud Gateway library), so they are modelled from the design
spec. -/

/-- One configured route: the literal path segments in front of the
/** wildcard of the Path predicate, the service name of the lb:// uri,
and the StripPrefix filter argument. -/
structure RouteRule where
  ruleId : String
  pattSegs : List String
  targetService : String
  stripCount : Nat
deriving DecidableEq

/-- The spring.cloud.gateway.routes table of application.properties,
in configured order. -/
def gatewayRoutes : List RouteRule :=
  [{ ruleId := "product-service-route", pattSegs := ["api", "products"],
     targetService := "PRODUCT-SERVICE", stripCount := 1 },
   { ruleId := "order-service-route", pattSegs := ["api", "orders"],
     targetService := "ORDER-SERVICE", stripCount := 1 }]

/-- The globalcors allowed-origins list of application.properties. -/
def gatewayAllowedOrigins : List String :=
  ["http://localhost:5173", "http://localhost:3000", "https://production-domain.com"]

/-- Splits a character list at every slash. -/
def splitSlash : List Char → List Char → List (List Char)
  | [], acc => [acc.reverse]
  | c :: cs, acc =>
    if c = '/' then acc.reverse :: splitSlash cs [] else splitSlash cs (c :: acc)

/-- Non-empty segments of a request path. -/
def pathSegs (p : String) : List String :=
  ((splitSlash p.data []).map String.mk).filter (fun s => s != "")

/-- Modelled from the spec: a Path=/p/** predicate matches a request
whose leading path segments are the literal segments of the pattern. -/
def segsMatch : List String → List String → Bool
  | [], _ => true
  | _ :: _, [] => false
  | p :: ps, q :: qs => p == q && segsMatch ps qs

/-- Whether one route rule matches a request path. -/
def ruleMatches (r : RouteRule) (path : String) : Bool :=
  segsMatch r.pattSegs (pathSegs path)

/-- Modelled from the spec: rules are evaluated in configured order
and the first match wins. -/
def firstMatch (rules : List RouteRule) (path : String) : Option RouteRule :=
  rules.find? (fun r => ruleMatches r path)

/-- Joins segments with slashes. -/
def segsPath : List String → String
  | [] => ""
  | [s] => s
  | s :: rest => s ++ "/" ++ segsPath rest

/-- Modelled from the spec: the StripPrefix filter drops the first n
path segments. -/
def stripSegs (path : String) (n : Nat) : String :=
  "/" ++ segsPath ((pathSegs path).drop n)

/-- A live backend instance as the registry reports it. -/
structure UpstreamInst where
  host : String
  port : Nat
deriving DecidableEq

/-- An external request as the gateway sees it: path, the Origin
header when the request is browser-originated, method and body
bytes. -/
structure GwRequest where
  path : String
  origin : Option String
  method : String
  body : List Nat
deriving DecidableEq

/-- A response: status code and body bytes. -/
structure GwResponse where
  status : Nat
  body : List Nat
deriving DecidableEq

/-- A forwarded upstream call: chosen instance, rewritten path, and
the relayed method and body. -/
structure UpstreamCall where
  inst : UpstreamInst
  path : String
  method : String
  body : List Nat
deriving DecidableEq

/-- Modelled from the spec: a request with no Origin header is not
browser-originated and passes; one with an Origin header passes only
when the origin is on the configured allow-list. -/
def corsAllowed (req : GwRequest) : Bool :=
  match req.origin with
  | none => true
  | some o => gatewayAllowedOrigins.contains o

/-- Modelled from the spec: the resolve-then-forward path of the
router.  Disallowed origins are rejected before any routing; an
unmatched path answers 404; an empty resolution answers 503; otherwise
the request is forwarded to one live instance with the rewrite
applied, and the upstream status and body are relayed verbatim.  The
second component records every upstream call made while handling the
request.  The registry view and the upstream behaviour are inputs. -/
def gatewayHandle (resolve : String → List UpstreamInst)
    (upstream : UpstreamCall → GwResponse) (req : GwRequest) :
    GwResponse × List UpstreamCall :=
  if corsAllowed req then
    match firstMatch gatewayRoutes req.path with
    | none => ({ status := 404, body := [] }, [])
    | some r =>
      match resolve r.targetService with
      | [] => ({ status := 503, body := [] }, [])
      | inst :: _ =>
        let call : UpstreamCall :=
          { inst := inst, path := stripSegs req.path r.stripCount,
            method := req.method, body := req.body }
        let resp := upstream call
        ({ status := resp.status, body := resp.body }, [call])
  else
    ({ status := 403, body := [] }, [])

/-! ## Store lemmas -/

theorem find?_filterNe (s : OrdersStore) (k k' : String) (h : k' ≠ k) :
    (s.filter (fun p => p.1 != k)).find? (fun p => p.1 == k') =
      s.find? (fun p => p.1 == k') := by
  induction s with
  | nil => rfl
  | cons a t ih =>
    by_cases hak : a.1 = k
    · have hak' : a.1 ≠ k' := by simp [hak, Ne.symm h]
      simp [List.filter_cons, List.find?_cons, hak, hak', ih, Ne.symm h]
    · by_cases hk' : a.1 = k'
      · simp [List.filter_cons, List.find?_cons, hak, hk', h]
      · simp [List.filter_cons, List.find?_cons, hak, hk', ih]

theorem find?_filterSelf (s : OrdersStore) (k : String) :
    (s.filter (fun p => p.1 != k)).find? (fun p => p.1 == k) = none := by
  induction s with
  | nil => rfl
  | cons a t ih =>
    by_cases hak : a.1 = k
    · simp [List.filter_cons, hak, ih]
    · simp [List.filter_cons, List.find?_cons, hak, ih]

theorem lookupOrder_insertOrder_self (s : OrdersStore) (k : String) (v : Order) :
    lookupOrder (insertOrder s k v) k = some v := by
  simp [lookupOrder, insertOrder, List.find?_cons]

theorem lookupOrder_insertOrder_ne (s : OrdersStore) (k k' : String) (v : Order)
    (h : k' ≠ k) :
    lookupOrder (insertOrder s k v) k' = lookupOrder s k' := by
  simp [lookupOrder, insertOrder, List.find?_cons, Ne.symm h, find?_filterNe s k k' h]

theorem lookupOrder_eraseOrder_self (s : OrdersStore) (k : String) :
    lookupOrder (eraseOrder s k) k = none := by
  simp [lookupOrder, eraseOrder, find?_filterSelf]

theorem lookupOrder_eraseOrder_ne (s : OrdersStore) (k k' : String) (h : k' ≠ k) :
    lookupOrder (eraseOrder s k) k' = lookupOrder s k' := by
  simp [lookupOrder, eraseOrder, find?_filterNe s k k' h]

/-! ## Decimal formatting lemmas -/

theorem natDigitsRevF_lt (f : Nat) : ∀ n, n ≤ f → ∀ d ∈ natDigitsRevF f n, d < 10 := by
  induction f with
  | zero =>
    intro n hn
    interval_cases n
    simp [natDigitsRevF]
  | succ f ih =>
    intro n hn d hd
    by_cases h0 : n = 0
    · simp [natDigitsRevF, h0] at hd
    · simp only [natDigitsRevF, h0, if_false, List.mem_cons] at hd
      rcases hd with hd | hd
      · omega
      · exact ih (n / 10) (by omega) d hd

theorem valRev_natDigitsRevF (f : Nat) : ∀ n, n ≤ f → valRev (natDigitsRevF f n) = n := by
  induction f with
  | zero =>
    intro n hn
    interval_cases n
    simp [natDigitsRevF, valRev]
  | succ f ih =>
    intro n hn
    by_cases h0 : n = 0
    · simp [natDigitsRevF, h0, valRev]
    · simp only [natDigitsRevF, h0, if_false, valRev]
      rw [ih (n / 10) (by omega)]
      omega

theorem chrVal_digitChr : ∀ d, d < 10 → chrVal (digitChr d) = d := by decide

theorem foldl_digitChr (ds : List Nat) (hds : ∀ d ∈ ds, d < 10) (a : Nat) :
    List.foldl (fun x c => 10 * x + chrVal c) a ((ds.reverse).map digitChr) =
      a * 10 ^ ds.length + valRev ds := by
  induction ds generalizing a with
  | nil => simp [valRev]
  | cons d t ih =>
    have hd : d < 10 := hds d (List.mem_cons_self d t)
    have ht : ∀ x ∈ t, x < 10 := fun x hx => hds x (List.mem_cons_of_mem d hx)
    simp only [List.reverse_cons, List.map_append, List.foldl_append, ih ht a,
      List.map_cons, List.map_nil, List.foldl_cons, List.foldl_nil,
      chrVal_digitChr d hd, valRev, List.length_cons]
    ring

theorem strVal_natToStr (n : Nat) : strVal (natToStr n) = n := by
  by_cases h0 : n = 0
  · subst h0
    decide
  · have hlt : ∀ d ∈ natDigitsRev n, d < 10 := natDigitsRevF_lt n n (Nat.le_refl n)
    have hval : valRev (natDigitsRev n) = n := valRev_natDigitsRevF n n (Nat.le_refl n)
    simp only [natToStr, h0, if_false, strVal]
    show List.foldl (fun x c => 10 * x + chrVal c) 0 (((natDigitsRev n).reverse).map digitChr) = n
    rw [foldl_digitChr (natDigitsRev n) hlt 0, hval]
    simp

theorem strVal_pad2 (n : Nat) : strVal (pad2 n) = n := by
  by_cases h : n < 10
  · simp only [pad2, h, if_true]
    have hdata : ("0" ++ natToStr n).data = '0' :: (natToStr n).data := by
      rw [String.data_append]
      rfl
    simp only [strVal, hdata, List.foldl_cons]
    have : (10 * 0 + chrVal '0') = 0 := by decide
    rw [this]
    exact strVal_natToStr n
  · simp only [pad2, h, if_false]
    exact strVal_natToStr n

theorem pad2_inj (a b : Nat) (h : (pad2 a).data = (pad2 b).data) : a = b := by
  have ha : strVal (pad2 a) = strVal (pad2 b) := by simp [strVal, h]
  rw [strVal_pad2, strVal_pad2] at ha
  exact ha

theorem digitChr_ne_minus : ∀ d, d < 10 → digitChr d ≠ '-' := by decide

theorem mapDigit_head (l : List Nat) (hl : ∀ d ∈ l, d < 10) (c : Char) (cs : List Char)
    (h : l.map digitChr = c :: cs) : c ≠ '-' := by
  cases l with
  | nil => simp at h
  | cons d t =>
    simp only [List.map_cons, List.cons.injEq] at h
    rw [← h.1]
    exact digitChr_ne_minus d (hl d (List.mem_cons_self d t))

theorem pad2_head_ne (n : Nat) (c : Char) (cs : List Char)
    (h : (pad2 n).data = c :: cs) : c ≠ '-' := by
  by_cases hlt : n < 10
  · have hdata : ("0" ++ natToStr n).data = '0' :: (natToStr n).data := by
      rw [String.data_append]
      rfl
    simp only [pad2, hlt, if_true, hdata] at h
    rw [← (List.cons.injEq '0' (natToStr n).data c cs).mp h |>.1]
    decide
  · have h0 : ¬ n = 0 := by omega
    simp only [pad2, hlt, if_false, natToStr, h0] at h
    exact mapDigit_head ((natDigitsRev n).reverse)
      (fun d hd => natDigitsRevF_lt n n (Nat.le_refl n) d (List.mem_reverse.mp hd)) c cs h

theorem intVal_pad2Int (n : Int) : intVal (pad2Int n) = n := by
  by_cases hn : n < 0
  · have hdata : ("-" ++ natToStr n.natAbs).data = '-' :: (natToStr n.natAbs).data := by
      rw [String.data_append]
      rfl
    simp only [pad2Int, hn, if_true, intVal, hdata, List.head?_cons, List.tail_cons,
      if_pos rfl]
    have hs : strVal (String.mk (natToStr n.natAbs).data) = n.natAbs := strVal_natToStr n.natAbs
    rw [hs]
    omega
  · simp only [pad2Int, hn, if_false]
    rcases hd : (pad2 n.toNat).data with _ | ⟨c, cs⟩
    · simp only [intVal, hd, List.head?_nil]
      rw [if_neg (by simp)]
      rw [strVal_pad2]
      omega
    · have hc : c ≠ '-' := pad2_head_ne n.toNat c cs hd
      simp only [intVal, hd, List.head?_cons]
      rw [if_neg (by simp [hc])]
      rw [strVal_pad2]
      omega

theorem pad2Int_inj (a b : Int) (h : pad2Int a = pad2Int b) : a = b := by
  have h2 := congrArg intVal h
  rwa [intVal_pad2Int, intVal_pad2Int] at h2

theorem genOrderID_data (n : Int) : (genOrderID n).data = 'o' :: '1' :: (pad2Int n).data := by
  simp only [genOrderID, String.data_append]
  rfl

theorem genOrderID_inj : Function.Injective genOrderID := by
  intro a b h
  have hd : (genOrderID a).data = (genOrderID b).data := by rw [h]
  rw [genOrderID_data, genOrderID_data] at hd
  have hp : (pad2Int a).data = (pad2Int b).data := by
    injection hd with _ hd
    injection hd
  exact pad2Int_inj a b (String.ext hp)

theorem genOrderID_eq_o101 (n : Int) (h : genOrderID n = "o101") : n = 1 := by
  have hd : (genOrderID n).data = "o101".data := by rw [h]
  rw [genOrderID_data] at hd
  have hp : (pad2Int n).data = ['0', '1'] := by
    injection hd with _ hd
    injection hd
  have h3 := congrArg intVal (String.ext hp)
  rw [intVal_pad2Int] at h3
  rw [h3]
  decide

theorem genOrderID_eq_o102 (n : Int) (h : genOrderID n = "o102") : n = 2 := by
  have hd : (genOrderID n).data = "o102".data := by rw [h]
  rw [genOrderID_data] at hd
  have hp : (pad2Int n).data = ['0', '2'] := by
    injection hd with _ hd
    injection hd
  have h3 := congrArg intVal (String.ext hp)
  rw [intVal_pad2Int] at h3
  rw [h3]
  decide

theorem wrap64_eq_self (x : Int) (h1 : -(2 ^ 63) ≤ x) (h2 : x < 2 ^ 63) : wrap64 x = x := by
  have e63 : (2 : Int) ^ 63 = 9223372036854775808 := by norm_num
  have e64 : (2 : Int) ^ 64 = 18446744073709551616 := by norm_num
  simp only [wrap64, e63, e64] at *
  omega

theorem wrap64_wrap64_add (x y : Int) : wrap64 (wrap64 x + y) = wrap64 (x + y) := by
  have e63 : (2 : Int) ^ 63 = 9223372036854775808 := by norm_num
  have e64 : (2 : Int) ^ 64 = 18446744073709551616 := by norm_num
  simp only [wrap64, e63, e64]
  omega

theorem counterSeq_shift (c : Int) : ∀ i, counterSeq (wrap64 (c + 1)) i = counterSeq c (i + 1) := by
  intro i
  induction i with
  | zero => rfl
  | succ i ih =>
    show wrap64 (counterSeq (wrap64 (c + 1)) i + 1) = wrap64 (counterSeq c (i + 1) + 1)
    rw [ih]

theorem counterSeq_wrap (c : Int) (h1 : -(2 ^ 63) ≤ c) (h2 : c < 2 ^ 63) :
    ∀ i : Nat, counterSeq c i = wrap64 (c + i) := by
  intro i
  induction i with
  | zero =>
    show c = wrap64 (c + (0 : Nat))
    simp only [Nat.cast_zero, add_zero]
    exact (wrap64_eq_self c h1 h2).symm
  | succ i ih =>
    show wrap64 (counterSeq c i + 1) = wrap64 (c + ((i : Nat) + 1 : Nat))
    rw [ih, wrap64_wrap64_add]
    congr 1
    push_cast
    ring

theorem runCreates_ids (bodies : List (Option Order)) :
    ∀ (store : OrdersStore) (counter : Int),
      (runCreates bodies store counter).2.2 =
        (List.range (bodies.countP Option.isSome)).map
          (fun i => genOrderID (counterSeq counter i)) := by
  induction bodies with
  | nil => intro store counter; simp [runCreates]
  | cons b rest ih =>
    intro store counter
    cases b with
    | none =>
      simp [runCreates, handleCreateOrder, respCreatedID, List.countP_cons, ih]
    | some o =>
      simp only [runCreates, handleCreateOrder, respCreatedID, List.countP_cons,
        Option.isSome_some, if_true, ih]
      rw [List.range_succ_eq_map]
      simp only [List.map_cons, List.map_map, List.singleton_append]
      congr 1
      apply List.map_congr_left
      intro i _
      simp only [Function.comp]
      exact congrArg genOrderID (counterSeq_shift counter i)

/-! ## Heartbeat-loop lemmas -/

theorem heartbeatLoop_cons (inst : Instance) (t : TickOutcome) (rest : List TickOutcome) :
    heartbeatLoop inst (t :: rest) = heartbeatTick inst t ++ heartbeatLoop inst rest := by
  simp [heartbeatLoop]

theorem noOverlap_tick_append (inst : Instance) (t : TickOutcome) (es : List ClientEvent) :
    noOverlap 0 (heartbeatTick inst t ++ es) = noOverlap 0 es := by
  cases h : t.hb <;> simp [heartbeatTick, CallResult.failed, h, noOverlap]

theorem sleepCount_tick (inst : Instance) (t : TickOutcome) :
    sleepCount (heartbeatTick inst t) = 1 := by
  cases h : t.hb <;> simp [heartbeatTick, CallResult.failed, h, sleepCount, List.countP_cons]

theorem tick_getLast (inst : Instance) (t : TickOutcome) :
    (heartbeatTick inst t).getLast? = some (ClientEvent.sleep 30) := by
  cases h : t.hb <;> simp [heartbeatTick, CallResult.failed, h]

theorem sleepCount_append (a b : List ClientEvent) :
    sleepCount (a ++ b) = sleepCount a + sleepCount b := by
  simp [sleepCount, List.countP_append]

/-! ## Claim theorems -/

/-- C1: in every iteration of the heartbeat loop, if the Heartbeat
call fails (NotFound or transport failure), the client immediately
issues exactly one fresh Register call carrying the same instance
record built at startup, and the loop proceeds to the next tick
whatever the outcome of that Register call. -/
theorem heartbeat_failure_reregisters (inst : Instance) (t : TickOutcome)
    (h : t.hb.failed = true) :
    heartbeatTick inst t =
      [ClientEvent.hbStart inst, ClientEvent.hbEnd inst t.hb,
       ClientEvent.logMsg "Eureka lease renewal (heartbeat) failed. Re-registering...",
       ClientEvent.regCall inst t.reg, ClientEvent.sleep 30] ∧
    regCount (heartbeatTick inst t) = 1 ∧
    ∀ rest : List TickOutcome,
      heartbeatLoop inst (t :: rest) = heartbeatTick inst t ++ heartbeatLoop inst rest := by
  refine ⟨by simp [heartbeatTick, h], ?_, fun rest => heartbeatLoop_cons inst t rest⟩
  simp [heartbeatTick, h, regCount, List.countP_cons]

/-- Witness for C1 at a concrete failed tick. -/
theorem heartbeat_failure_reregisters_witness :
    ({ hb := CallResult.notFound, reg := CallResult.transportErr } : TickOutcome).hb.failed
        = true ∧
    regCount (heartbeatTick orderInstance
      { hb := CallResult.notFound, reg := CallResult.transportErr }) = 1 :=
  ⟨by decide,
   (heartbeat_failure_reregisters orderInstance
     { hb := CallResult.notFound, reg := CallResult.transportErr } (by decide)).2.1⟩

/-- C2: a failed startup registration is not fatal: for every
registration outcome the process still reaches its listener and
serves, and the startup sequence ends in a fatal exit exactly when
binding the listening port fails. -/
theorem register_failure_nonfatal (inst : Instance) (r : CallResult) :
    (mainStartup inst r true).status = ProcStatus.serving ∧
    ClientEvent.listen inst.port ∈ (mainStartup inst r true).events ∧
    ClientEvent.logMsg
        (if r.failed then "Eureka registration failed"
         else "Successfully registered with Eureka") ∈ (mainStartup inst r true).events ∧
    ∀ b : Bool, ((mainStartup inst r b).status = ProcStatus.fatalExit ↔ b = false) := by
  refine ⟨by simp [mainStartup], by simp [mainStartup], by simp [mainStartup], ?_⟩
  intro b
  cases b <;> simp [mainStartup]

/-- C3: on a termination signal the handler performs exactly one
Deregister call, then exits with code 0; the trace is the same fixed
sequence for every deregistration outcome, so a failure is never
retried. -/
theorem shutdown_single_deregister (inst : Instance) (r : CallResult) :
    shutdownHandler inst r =
      [ClientEvent.logMsg "De-registering from Eureka...",
       ClientEvent.deregCall inst r,
       ClientEvent.logMsg "Shutting down Go API.",
       ClientEvent.exitProc 0] ∧
    deregCount (shutdownHandler inst r) = 1 ∧
    (shutdownHandler inst r).getLast? = some (ClientEvent.exitProc 0) := by
  refine ⟨rfl, ?_, rfl⟩
  simp [shutdownHandler, deregCount, List.countP_cons]

/-- C4: the heartbeat loop is a single sequential background task:
for every schedule, no two heartbeat calls are ever in flight at
once, every iteration contains exactly one fixed 30-second sleep, and
every iteration ends with that sleep. -/
theorem heartbeat_sequential (inst : Instance) (ticks : List TickOutcome) :
    noOverlap 0 (heartbeatLoop inst ticks) = true ∧
    sleepCount (heartbeatLoop inst ticks) = ticks.length ∧
    ∀ t : TickOutcome, (heartbeatTick inst t).getLast? = some (ClientEvent.sleep 30) := by
  refine ⟨?_, ?_, tick_getLast inst⟩
  · induction ticks with
    | nil => rfl
    | cons t rest ih =>
      rw [heartbeatLoop_cons, noOverlap_tick_append]
      exact ih
  · induction ticks with
    | nil => rfl
    | cons t rest ih =>
      rw [heartbeatLoop_cons, sleepCount_append, sleepCount_tick, ih]
      simp only [List.length_cons]
      omega

/-- C5 counterexample: the shutdown path of the source contains no
drain step at all — at the order backend with a successful
deregistration, no event of the shutdown trace lets in-flight
requests drain before the process terminates. -/
theorem shutdown_drain_cex :
    ClientEvent.drainRequests ∉ shutdownHandler orderInstance CallResult.ok := by
  decide

/-- C5 amended: after the best-effort deregistration the process
exits immediately via os.Exit(0); no drain or grace period occurs
before termination. -/
theorem shutdown_exits_without_drain (inst : Instance) (r : CallResult) :
    ClientEvent.drainRequests ∉ shutdownHandler inst r ∧
    (shutdownHandler inst r).getLast? = some (ClientEvent.exitProc 0) ∧
    List.drop 1 (shutdownHandler inst r) =
      [ClientEvent.deregCall inst r,
       ClientEvent.logMsg "Shutting down Go API.",
       ClientEvent.exitProc 0] := by
  refine ⟨?_, rfl, rfl⟩
  simp [shutdownHandler]

/-- C6: under the configured rules, a request to /api/orders/o101
with a live ORDER-SERVICE instance at 127.0.0.1:9092 is forwarded to
that instance at path /orders/o101 (one segment stripped), and the
upstream status code and body bytes are relayed verbatim. -/
theorem gateway_order_route (resolve : String → List UpstreamInst)
    (upstream : UpstreamCall → GwResponse) (req : GwRequest)
    (hpath : req.path = "/api/orders/o101")
    (hcors : corsAllowed req = true)
    (hres : resolve "ORDER-SERVICE" = [{ host := "127.0.0.1", port := 9092 }]) :
    gatewayHandle resolve upstream req =
      ({ status :=
           (upstream
             { inst := { host := "127.0.0.1", port := 9092 }, path := "/orders/o101",
               method := req.method, body := req.body }).status,
         body :=
           (upstream
             { inst := { host := "127.0.0.1", port := 9092 }, path := "/orders/o101",
               method := req.method, body := req.body }).body },
       [{ inst := { host := "127.0.0.1", port := 9092 }, path := "/orders/o101",
          method := req.method, body := req.body }]) := by
  have hmatch : firstMatch gatewayRoutes "/api/orders/o101" =
      some { ruleId := "order-service-route", pattSegs := ["api", "orders"],
             targetService := "ORDER-SERVICE", stripCount := 1 } := by decide
  have hstrip : stripSegs "/api/orders/o101" 1 = "/orders/o101" := by decide
  simp only [gatewayHandle, hcors, if_true, hpath, hmatch, hres, hstrip]

/-- Witness for C6 at a concrete request, registry view and upstream
behaviour. -/
theorem gateway_order_route_witness :
    corsAllowed { path := "/api/orders/o101", origin := none, method := "GET", body := [7] }
        = true ∧
    gatewayHandle
      (fun s => if s = "ORDER-SERVICE" then [{ host := "127.0.0.1", port := 9092 }] else [])
      (fun c => { status := 200, body := c.body })
      { path := "/api/orders/o101", origin := none, method := "GET", body := [7] } =
      ({ status := 200, body := [7] },
       [{ inst := { host := "127.0.0.1", port := 9092 }, path := "/orders/o101",
          method := "GET", body := [7] }]) :=
  ⟨by decide,
   gateway_order_route
     (fun s => if s = "ORDER-SERVICE" then [{ host := "127.0.0.1", port := 9092 }] else [])
     (fun c => { status := 200, body := c.body })
     { path := "/api/orders/o101", origin := none, method := "GET", body := [7] }
     rfl (by decide) (by decide)⟩

/-- C7: a browser request whose Origin is not on the configured
allow-list is answered 403 and no upstream call is made. -/
theorem gateway_cors_reject (resolve : String → List UpstreamInst)
    (upstream : UpstreamCall → GwResponse) (req : GwRequest) (o : String)
    (ho : req.origin = some o)
    (hna : gatewayAllowedOrigins.contains o = false) :
    (gatewayHandle resolve upstream req).1.status = 403 ∧
    (gatewayHandle resolve upstream req).2 = [] := by
  have hc : corsAllowed req = false := by
    simp only [corsAllowed, ho]
    exact hna
  simp [gatewayHandle, hc]

/-- Witness for C7 at a concrete disallowed origin. -/
theorem gateway_cors_reject_witness :
    ({ path := "/api/orders/o101", origin := some "http://evil.example",
        method := "GET", body := [] } : GwRequest).origin = some "http://evil.example" ∧
    gatewayAllowedOrigins.contains "http://evil.example" = false ∧
    (gatewayHandle (fun _ => [{ host := "127.0.0.1", port := 9092 }])
      (fun _ => { status := 200, body := [] })
      { path := "/api/orders/o101", origin := some "http://evil.example",
        method := "GET", body := [] }).2 = [] :=
  ⟨rfl, by decide,
   (gateway_cors_reject (fun _ => [{ host := "127.0.0.1", port := 9092 }])
     (fun _ => { status := 200, body := [] })
     { path := "/api/orders/o101", origin := some "http://evil.example",
       method := "GET", body := [] }
     "http://evil.example" rfl (by decide)).2⟩

/-- C8: every error response of PUT /orders/id — empty id (400),
unknown id (404), undecodable body (400) — leaves the orders store
unchanged (any non-200 response does); the store is mutated only when
the id exists and the body decodes, and then exactly the entry for
that id is replaced by the decoded record with its ID field forced to
the path id, every other entry reading back unchanged. -/
theorem update_order_spec (path id : String) (body : Option Order)
    (store : OrdersStore) (hid : trimPfx path "/orders/" = id) :
    (id = "" →
      handleUpdateOrder path body store =
        ({ status := 400, body := RespBody.errMsg "Order ID is required" }, store)) ∧
    (id ≠ "" → lookupOrder store id = none →
      handleUpdateOrder path body store =
        ({ status := 404, body := RespBody.errMsg "Order not found" }, store)) ∧
    (id ≠ "" → (lookupOrder store id).isSome → body = none →
      handleUpdateOrder path body store =
        ({ status := 400, body := RespBody.errMsg "Invalid request body" }, store)) ∧
    ((handleUpdateOrder path body store).1.status ≠ 200 →
      (handleUpdateOrder path body store).2 = store) ∧
    (∀ o : Order, id ≠ "" → (lookupOrder store id).isSome → body = some o →
      (handleUpdateOrder path body store).1 =
        { status := 200, body := RespBody.orderJson { o with id := id } } ∧
      lookupOrder (handleUpdateOrder path body store).2 id = some { o with id := id } ∧
      ∀ k : String, k ≠ id →
        lookupOrder (handleUpdateOrder path body store).2 k = lookupOrder store k) := by
  subst hid
  refine ⟨?_, ?_, ?_, ?_, ?_⟩
  · intro h0
    simp [handleUpdateOrder, h0]
  · intro hne hnone
    simp [handleUpdateOrder, hne, hnone]
  · intro hne hsome hb
    rcases Option.isSome_iff_exists.mp hsome with ⟨v, hv⟩
    simp [handleUpdateOrder, hne, hv, hb]
  · intro hstat
    by_cases h0 : trimPfx path "/orders/" = ""
    · simp [handleUpdateOrder, h0]
    · rcases hl : lookupOrder store (trimPfx path "/orders/") with _ | v
      · simp [handleUpdateOrder, h0, hl]
      · rcases hb : body with _ | o
        · simp [handleUpdateOrder, h0, hl]
        · exact absurd (by simp [handleUpdateOrder, h0, hl, hb]) hstat
  · intro o hne hsome hb
    rcases Option.isSome_iff_exists.mp hsome with ⟨v, hv⟩
    have hstep : handleUpdateOrder path body store =
        ({ status := 200,
           body := RespBody.orderJson { o with id := trimPfx path "/orders/" } },
         insertOrder store (trimPfx path "/orders/")
           { o with id := trimPfx path "/orders/" }) := by
      simp [handleUpdateOrder, hne, hv, hb]
    rw [hstep]
    exact ⟨rfl, lookupOrder_insertOrder_self _ _ _,
      fun k hk => lookupOrder_insertOrder_ne _ _ _ _ hk⟩

/-- Witness for C8: a successful update of o102 at a concrete store,
with the 404 case exercised at an unknown id. -/
theorem update_order_spec_witness :
    trimPfx "/orders/o102" "/orders/" = "o102" ∧
    lookupOrder
      ((handleUpdateOrder "/orders/o102"
        (some { id := "zzz", total := mkRat 455 10, product := "Wireless" })
        initialOrdersStore).2) "o102" =
      some { id := "o102", total := mkRat 455 10, product := "Wireless" } :=
  ⟨by decide,
   ((update_order_spec "/orders/o102" "o102"
       (some { id := "zzz", total := mkRat 455 10, product := "Wireless" })
       initialOrdersStore (by decide)).2.2.2.2
     { id := "zzz", total := mkRat 455 10, product := "Wireless" }
     (by decide) (by decide) rfl).2.1⟩

/-- C9: DELETE /orders/id with a nonempty path id removes exactly the
named entry when it exists (204, that id gone, all other entries read
back unchanged) and answers 404 leaving the store untouched when the
id is unknown — deleting an absent order is an error. -/
theorem delete_order_spec (path id : String) (store : OrdersStore)
    (hid : trimPfx path "/orders/" = id) (hne : id ≠ "") :
    (lookupOrder store id = none →
      handleDeleteOrder path store =
        ({ status := 404, body := RespBody.errMsg "Order not found" }, store)) ∧
    (∀ o : Order, lookupOrder store id = some o →
      (handleDeleteOrder path store).1 = { status := 204, body := RespBody.empty } ∧
      lookupOrder (handleDeleteOrder path store).2 id = none ∧
      ∀ k : String, k ≠ id →
        lookupOrder (handleDeleteOrder path store).2 k = lookupOrder store k) := by
  subst hid
  refine ⟨?_, ?_⟩
  · intro hnone
    simp [handleDeleteOrder, hne, hnone]
  · intro o ho
    have hstep : handleDeleteOrder path store =
        ({ status := 204, body := RespBody.empty },
         eraseOrder store (trimPfx path "/orders/")) := by
      simp [handleDeleteOrder, hne, ho]
    rw [hstep]
    exact ⟨rfl, lookupOrder_eraseOrder_self _ _,
      fun k hk => lookupOrder_eraseOrder_ne _ _ _ hk⟩

/-- Witness for C9: deleting the seeded order o101 answers 204,
removes it, and leaves o102 readable. -/
theorem delete_order_spec_witness :
    trimPfx "/orders/o101" "/orders/" = "o101" ∧
    (handleDeleteOrder "/orders/o101" initialOrdersStore).1.status = 204 ∧
    lookupOrder (handleDeleteOrder "/orders/o101" initialOrdersStore).2 "o101" = none :=
  ⟨by decide,
   congrArg HttpResponse.status
     ((delete_order_spec "/orders/o101" "o101" initialOrdersStore (by decide) (by decide)).2
       { id := "o101", total := mkRat 120050 100, product := "Laptop" } (by decide)).1,
   ((delete_order_spec "/orders/o101" "o101" initialOrdersStore (by decide) (by decide)).2
     { id := "o101", total := mkRat 120050 100, product := "Laptop" } (by decide)).2.1⟩

/-- C10 counterexample: with the Go int counter wrapping at 64 bits,
a run of 2^64 - 1 successful creates within one process hands out the
id o101 of a seeded order, so the unbounded distinct-and-fresh claim
fails on the code. -/
theorem create_order_ids_cex :
    "o101" ∈ (runCreates
      (List.replicate (2 ^ 64 - 1) (some { id := "", total := 0, product := "Widget" }))
      initialOrdersStore initialNextOrderID).2.2 := by
  rw [runCreates_ids]
  have hall : ∀ a ∈ List.replicate (2 ^ 64 - 1)
      (some ({ id := "", total := 0, product := "Widget" } : Order)),
      Option.isSome a = true := by
    intro a ha
    rw [List.eq_of_mem_replicate ha]
    rfl
  rw [List.countP_eq_length.mpr hall, List.length_replicate]
  refine List.mem_map.mpr ⟨2 ^ 64 - 2, List.mem_range.mpr (by norm_num), ?_⟩
  have hcs : counterSeq initialNextOrderID (2 ^ 64 - 2) =
      wrap64 (3 + ((2 ^ 64 - 2 : Nat) : Int)) :=
    counterSeq_wrap 3 (by norm_num) (by norm_num) (2 ^ 64 - 2)
  rw [hcs]
  have hw : wrap64 (3 + ((2 ^ 64 - 2 : Nat) : Int)) = 1 := by
    have e : ((2 ^ 64 - 2 : Nat) : Int) = 18446744073709551614 := by norm_num
    have e63 : (2 : Int) ^ 63 = 9223372036854775808 := by norm_num
    have e64 : (2 : Int) ^ 64 = 18446744073709551616 := by norm_num
    simp only [wrap64, e, e63, e64]
    omega
  rw [hw]
  decide

/-- C10 amended: a successful POST /orders stores the record under
the server-generated id o1%02d of the current counter, overriding any
client-supplied id, and advances the counter by a wrapping 64-bit
increment; starting from the seeded store and counter 3, every
sequence of create requests with at most 2^64 - 2 successes hands out
pairwise distinct ids that never collide with the seeded orders o101
and o102.  Beyond that bound the wrapping counter revisits the values
1 and 2, so the bound is exact. -/
theorem create_order_ids :
    (∀ (o : Order) (store : OrdersStore) (counter : Int),
      handleCreateOrder (some o) store counter =
        ({ status := 201, body := RespBody.orderJson { o with id := genOrderID counter } },
         insertOrder store (genOrderID counter) { o with id := genOrderID counter },
         wrap64 (counter + 1))) ∧
    (∀ bodies : List (Option Order),
      bodies.countP Option.isSome ≤ 2 ^ 64 - 2 →
      ((runCreates bodies initialOrdersStore initialNextOrderID).2.2).Nodup ∧
      "o101" ∉ (runCreates bodies initialOrdersStore initialNextOrderID).2.2 ∧
      "o102" ∉ (runCreates bodies initialOrdersStore initialNextOrderID).2.2) := by
  have e63 : (2 : Int) ^ 63 = 9223372036854775808 := by norm_num
  have e64 : (2 : Int) ^ 64 = 18446744073709551616 := by norm_num
  have e64n : (2 : Nat) ^ 64 = 18446744073709551616 := by norm_num
  have hcs : ∀ i : Nat, counterSeq initialNextOrderID i = wrap64 (3 + (i : Int)) :=
    counterSeq_wrap 3 (by norm_num) (by norm_num)
  refine ⟨fun o store counter => rfl, ?_⟩
  intro bodies hk
  rw [runCreates_ids]
  rw [e64n] at hk
  refine ⟨?_, ?_, ?_⟩
  · refine List.Nodup.map_on ?_ (List.nodup_range _)
    intro i hi j hj hij
    have h1 := genOrderID_inj hij
    rw [hcs i, hcs j] at h1
    have hi2 := List.mem_range.mp hi
    have hj2 := List.mem_range.mp hj
    simp only [wrap64, e63, e64] at h1
    omega
  · intro hmem
    rcases List.mem_map.mp hmem with ⟨i, hir, hi⟩
    rw [hcs i] at hi
    have h1 := genOrderID_eq_o101 _ hi
    have hi2 := List.mem_range.mp hir
    simp only [wrap64, e63, e64] at h1
    omega
  · intro hmem
    rcases List.mem_map.mp hmem with ⟨i, hir, hi⟩
    rw [hcs i] at hi
    have h1 := genOrderID_eq_o102 _ hi
    have hi2 := List.mem_range.mp hir
    simp only [wrap64, e63, e64] at h1
    omega

/-- Witness for C10 at a concrete short run of create requests. -/
theorem create_order_ids_witness :
    (([some ({ id := "x", total := 0, product := "Keyboard" } : Order), none,
       some ({ id := "y", total := 0, product := "Monitor" } : Order)] :
        List (Option Order)).countP Option.isSome ≤ 2 ^ 64 - 2) ∧
    ((runCreates
        [some ({ id := "x", total := 0, product := "Keyboard" } : Order), none,
         some ({ id := "y", total := 0, product := "Monitor" } : Order)]
        initialOrdersStore initialNextOrderID).2.2).Nodup ∧
    "o101" ∉ (runCreates
        [some ({ id := "x", total := 0, product := "Keyboard" } : Order), none,
         some ({ id := "y", total := 0, product := "Monitor" } : Order)]
        initialOrdersStore initialNextOrderID).2.2 :=
  ⟨by decide,
   (create_order_ids.2
     [some ({ id := "x", total := 0, product := "Keyboard" } : Order), none,
      some ({ id := "y", total := 0, product := "Monitor" } : Order)] (by decide)).1,
   (create_order_ids.2
     [some ({ id := "x", total := 0, product := "Keyboard" } : Order), none,
      some ({ id := "y", total := 0, product := "Monitor" } : Order)] (by decide)).2.1⟩
